import Mathlib

/-!
Verification development for the domain health-check engine of the
`domain_info_bot` repository (Python sources under `bot/` and `db/`).

The Python code is shallowly embedded: SQLAlchemy rows become structures,
network probes become oracle functions passed in as parameters, raised
exceptions become `Except`/`Option` values, and the per-sweep loops of
`bot/scheduler.py` become folds over lists of rows.  Machine integers are
modelled as `Int`/`Nat` (no overflow is relevant to any claim).
-/

namespace DomainInfoBot

/-! ## Data model (`db/models.py`)

`UserSettings` holds the non-optional per-user defaults (column defaults
`True, True, True, True, 15, 30`).  `Domain` rows hold optional overrides;
`None` (here `Option.none`) means "defer to the owner settings".  The `id`
and `added_at` columns are omitted: no checked claim reads them. -/

structure UserSettings where
  track_http : Bool
  track_https : Bool
  track_ssl : Bool
  track_whois : Bool
  ssl_warn_days : Int
  whois_warn_days : Int
deriving DecidableEq, Repr

/-- Column defaults of `user_settings` in `db/models.py`: a row built as
`UserSettings(user_id=...)` carries exactly these values. -/
def defaultUserSettings : UserSettings :=
  { track_http := true, track_https := true, track_ssl := true, track_whois := true
    ssl_warn_days := 15, whois_warn_days := 30 }

structure Domain where
  name : String
  user_id : Nat
  track_http : Option Bool
  track_https : Option Bool
  track_ssl : Option Bool
  track_whois : Option Bool
  ssl_warn_days : Option Int
  whois_warn_days : Option Int
deriving DecidableEq, Repr

/-! ## Settings resolution -/

/-- `bot/scheduler.py`, `get_value`:
`return domain_value if domain_value is not None else settings_value`. -/
def get_value {α : Type} (domain_value : Option α) (settings_value : α) : α :=
  match domain_value with
  | some v => v
  | none => settings_value

/-- Python `a or b` on an optional integer: both `None` and `0` are falsy,
so the right operand is taken for either.  This is the operator used for the
warn-day thresholds in `perform_check` (`bot/main.py` lines 207-208). -/
def pyOr (a : Option Int) (b : Int) : Int :=
  match a with
  | some v => if v = 0 then b else v
  | none => b

/-- A fully resolved policy: the six effective values a check runs with. -/
structure Effective where
  track_http : Bool
  track_https : Bool
  track_ssl : Bool
  track_whois : Bool
  ssl_warn_days : Int
  whois_warn_days : Int
deriving DecidableEq, Repr

/-- Effective policy as the scheduler sweeps compute it
(`bot/scheduler.py` applies `get_value` to each of the six fields). -/
def scheduler_effective (row : Domain) (s : UserSettings) : Effective :=
  { track_http := get_value row.track_http s.track_http
    track_https := get_value row.track_https s.track_https
    track_ssl := get_value row.track_ssl s.track_ssl
    track_whois := get_value row.track_whois s.track_whois
    ssl_warn_days := get_value row.ssl_warn_days s.ssl_warn_days
    whois_warn_days := get_value row.whois_warn_days s.whois_warn_days }

/-- Effective policy as `perform_check` computes it (`bot/main.py` lines
203-208): the four flags use `... if ... is not None else ...`, but the two
warn-day thresholds use Python `or`. -/
def perform_check_effective (row : Domain) (s : UserSettings) : Effective :=
  { track_http := match row.track_http with | some v => v | none => s.track_http
    track_https := match row.track_https with | some v => v | none => s.track_https
    track_ssl := match row.track_ssl with | some v => v | none => s.track_ssl
    track_whois := match row.track_whois with | some v => v | none => s.track_whois
    ssl_warn_days := pyOr row.ssl_warn_days s.ssl_warn_days
    whois_warn_days := pyOr row.whois_warn_days s.whois_warn_days }

/-- Effective policy in the words of the specification: for each of the six
fields, `domain.field if domain.field is not None else user_settings.field`.
Stated from the spec so the two code paths can be compared against it. -/
def spec_effective (row : Domain) (s : UserSettings) : Effective :=
  { track_http := match row.track_http with | some v => v | none => s.track_http
    track_https := match row.track_https with | some v => v | none => s.track_https
    track_ssl := match row.track_ssl with | some v => v | none => s.track_ssl
    track_whois := match row.track_whois with | some v => v | none => s.track_whois
    ssl_warn_days := match row.ssl_warn_days with | some v => v | none => s.ssl_warn_days
    whois_warn_days := match row.whois_warn_days with | some v => v | none => s.whois_warn_days }

/-- Settings access in `perform_check` (`bot/main.py` lines 196-200): a
missing row is replaced by a freshly created default row (lazy
get-or-create).  The store is a snapshot `user_id -> Option UserSettings`. -/
def perform_check_settings (store : Nat → Option UserSettings) (uid : Nat) : UserSettings :=
  match store uid with
  | some s => s
  | none => defaultUserSettings

/-! ## Probe result types (`bot/utils.py`) -/

/-- Per-protocol outcome of `check_http_https`:
`{"status": "ok", "code": n}` or `{"status": "fail", "error": e}`. -/
inductive ProtoResult where
  | ok (code : Nat)
  | fail (error : String)
deriving DecidableEq, Repr

/-- The dict returned by `check_http_https`: one entry per protocol. -/
structure FetchPair where
  http : ProtoResult
  https : ProtoResult
deriving DecidableEq, Repr

/-- Test `result.get("status") == "ok"`. -/
def protoStatusOk : ProtoResult → Bool
  | .ok _ => true
  | .fail _ => false

/-- Access `result.get("error", "error")` as the scheduler does when
formatting a problem line. -/
def protoErrField : ProtoResult → String
  | .ok _ => "error"
  | .fail e => e

/-- Result of `_check_ssl_sync`: either the certificate facts or the caught
connection/handshake error (`valid` False). -/
inductive SslResult where
  | ok (expires_at : String) (days_left : Int) (issuer : String)
  | err (error : String)
deriving DecidableEq, Repr

/-- The `valid` field of an SSL probe result. -/
def sslValidB : SslResult → Bool
  | .ok _ _ _ => true
  | .err _ => false

/-- The `days_left` field, absent on the error dict. -/
def sslDaysOpt : SslResult → Option Int
  | .ok _ d _ => some d
  | .err _ => none

/-- Result of `_check_domain_expiry_sync`: either the parsed expiry facts or
the caught error (`valid` False). -/
inductive WhoisResult where
  | ok (expires_at : String) (days_left : Int)
  | err (error : String)
deriving DecidableEq, Repr

/-- The `valid` field of a WHOIS probe result. -/
def whoisValidB : WhoisResult → Bool
  | .ok _ _ => true
  | .err _ => false

/-- The `expires_at` field, absent on the error dict. -/
def whoisExpiresAt? : WhoisResult → Option String
  | .ok x _ => some x
  | .err _ => none

/-- The `days_left` field, absent on the error dict. -/
def whoisDaysOpt : WhoisResult → Option Int
  | .ok _ d => some d
  | .err _ => none

/-- SSL reduction in `check_ssl_whois_domains` (`bot/scheduler.py` line 70):
`not ssl_result["valid"] or ssl_result.get("days_left", 0) < ssl_days`. -/
def sslProblemFlag (r : SslResult) (ssl_days : Int) : Bool :=
  !(sslValidB r) || decide ((sslDaysOpt r).getD 0 < ssl_days)

/-- WHOIS reduction in `check_ssl_whois_domains` (`bot/scheduler.py` line
76): `not whois_result["valid"] or whois_result.get("days_left", 0) < whois_days`. -/
def whoisProblemFlag (r : WhoisResult) (whois_days : Int) : Bool :=
  !(whoisValidB r) || decide ((whoisDaysOpt r).getD 0 < whois_days)

/-! ## HTTP fetch with retries and curl fallback (`bot/utils.py`)

The in-process `httpx` attempts are abstracted as an oracle
`att : Nat -> Except String Nat` giving, for each attempt index, either the
response status code or the exception text of that attempt.  The curl
subprocess is abstracted as `Except String CurlOut`: either the exception
raised by spawning it or the captured stdout/stderr of the completed
process. -/

/-- ASCII model of the Python whitespace set used by `str.strip` and by the
regex class written with a backslash s. -/
def isPySpace (c : Char) : Bool :=
  c = ' ' || c = '\t' || c = '\n' || c = '\r' || c = '\x0b' || c = '\x0c'

/-- Python `str.strip()` on a character list. -/
def pyStrip (cs : List Char) : List Char :=
  ((cs.dropWhile isPySpace).reverse.dropWhile isPySpace).reverse

/-- Python `str.isdigit()`: nonempty and every character a digit. -/
def pyIsdigit (cs : List Char) : Bool :=
  !cs.isEmpty && cs.all Char.isDigit

/-- Numeric value of a digit string, as `int(...)` computes it. -/
def digitsToNat (cs : List Char) : Nat :=
  cs.foldl (fun acc c => acc * 10 + (c.toNat - '0'.toNat)) 0

/-- Captured output of the curl subprocess (`stdout.decode()`,
`stderr.decode()`). -/
structure CurlOut where
  stdoutStr : String
  stderrStr : String
deriving DecidableEq, Repr

/-- Outcome of `run_curl_check`: `{"ok": True, "code": n}` or
`{"ok": False, "error": e}`. -/
inductive CurlResult where
  | ok (code : Nat)
  | fail (error : String)
deriving DecidableEq, Repr

/-- `bot/utils.py`, `run_curl_check`: strip the decoded stdout; if it is all
digits and below 600 the check is ok with that code, otherwise it fails with
a message naming the stdout and stripped stderr; any exception while
spawning curl is caught and becomes a failure with the exception text. -/
def run_curl_check (proc : Except String CurlOut) : CurlResult :=
  match proc with
  | .error e => .fail e
  | .ok o =>
    let code := pyStrip o.stdoutStr.data
    if pyIsdigit code && decide (digitsToNat code < 600) then
      .ok (digitsToNat code)
    else
      .fail ("curl status: " ++ String.mk code ++ ", stderr: "
        ++ String.mk (pyStrip o.stderrStr.data))

/-- Observable trace of one `fetch_with_retries` call: the returned
per-protocol result, how many in-process attempts ran, how many one-second
sleeps happened (one after each failed attempt), and whether the curl
fallback was invoked. -/
structure FetchTrace where
  result : ProtoResult
  attemptsMade : Nat
  sleeps : Nat
  curlInvoked : Bool
deriving DecidableEq, Repr

/-- The `for attempt in range(3)` loop body of `fetch_with_retries`: run
attempts starting at index `i` while `remaining` is positive; a success
returns its code immediately, a failure records the exception text and
sleeps.  Returns the optional success code, the last error, and the counts. -/
def httpxAttempts (att : Nat → Except String Nat) :
    Nat → Nat → Option String → Nat → Nat → Option Nat × Option String × Nat × Nat
  | _, 0, last, made, sleeps => (none, last, made, sleeps)
  | i, remaining + 1, last, made, sleeps =>
    match att i with
    | .ok c => (some c, last, made + 1, sleeps)
    | .error e => httpxAttempts att (i + 1) remaining (some e) (made + 1) (sleeps + 1)

/-- Python rendering of `last_error` inside the f-string (`str(None)` when
no attempt ever ran, which `range(3)` makes unreachable). -/
def fstrOpt (o : Option String) : String := o.getD "None"

/-- `bot/utils.py`, `fetch_with_retries`: up to 3 in-process attempts; when
one succeeds return ok with its status code; when all fail invoke
`run_curl_check`, returning ok with the curl code on success and otherwise
fail with the concatenation of the last in-process error and the curl
error. -/
def fetch_with_retries (att : Nat → Except String Nat)
    (curl : Except String CurlOut) : FetchTrace :=
  match httpxAttempts att 0 3 none 0 0 with
  | (some c, _, made, sleeps) => ⟨.ok c, made, sleeps, false⟩
  | (none, last, made, sleeps) =>
    match run_curl_check curl with
    | .ok code => ⟨.ok code, made, sleeps, true⟩
    | .fail ce =>
      ⟨.fail ("httpx: " ++ fstrOpt last ++ "; curl: " ++ ce), made, sleeps, true⟩

/-- `bot/utils.py`, `check_http_https`: one `fetch_with_retries` per
protocol, assembled into the result dict. -/
def check_http_https (attHttp attHttps : Nat → Except String Nat)
    (curlHttp curlHttps : Except String CurlOut) : FetchPair :=
  ⟨(fetch_with_retries attHttp curlHttp).result,
   (fetch_with_retries attHttps curlHttps).result⟩

/-! ## Sweep embedding (`bot/scheduler.py`)

Each sweep function loops over all domain rows; the body of the loop sits
in a `try`/`except` that turns any exception into a single error message to
the owner.  Messages sent through `bot.send_message` are modelled
structurally as `SweepMsg` values carrying the recipient, the domain and
either the problem list (the availability/expiry alert text) or the caught
exception text (the per-domain error alert).

The probe drivers are oracles returning `Except String _`: an `Except.error`
models the probe call raising that exception into the loop body. -/

inductive SweepMsg where
  | problems (user_id : Nat) (domain : String) (probs : List String)
  | checkError (user_id : Nat) (domain : String) (error : String)
deriving DecidableEq, Repr

/-- Text of the `AttributeError` raised at `get_value(row.track_http,
user_settings.track_http)` when no `user_settings` row exists: the second
argument is evaluated on `None`. -/
def attrErrTrackHttp : String :=
  "\x27NoneType\x27 object has no attribute \x27track_http\x27"

/-- Text of the `AttributeError` raised at `get_value(row.track_ssl,
user_settings.track_ssl)` when no `user_settings` row exists. -/
def attrErrTrackSsl : String :=
  "\x27NoneType\x27 object has no attribute \x27track_ssl\x27"

/-- Problem line appended for a failed HTTP scheme check. -/
def httpProblemText (r : ProtoResult) : String :=
  "HTTP ❌ (" ++ protoErrField r ++ ")"

/-- Problem line appended for a failed HTTPS scheme check. -/
def httpsProblemText (r : ProtoResult) : String :=
  "HTTPS ❌ (" ++ protoErrField r ++ ")"

/-- Problem line appended for a flagged SSL certificate. -/
def sslProblemText : String := "SSL certificate is expiring or invalid ⚠️"

/-- Problem line appended for a flagged WHOIS expiry. -/
def whoisProblemText : String := "Domain registration is expiring ⚠️"

/-- `if problems: await bot.send_message(...)`: a message is sent exactly
when the accumulated problem list is nonempty. -/
def probMsg (row : Domain) (probs : List String) : Option SweepMsg :=
  if probs.isEmpty then none else some (.problems row.user_id row.name probs)

/-- Observable outcome of one `check_http_https_domains` loop iteration:
the value of the `http_result` local after the iteration (it persists in
`locals()` across iterations), the message sent (if any), which domains the
combined HTTP/HTTPS driver was invoked for, the accumulated problem list,
and the exception caught by the per-domain `except` (if any). -/
structure HttpStepOut where
  st : Option FetchPair
  msg : Option SweepMsg
  fetched : List String
  problems : List String
  exc : Option String
deriving DecidableEq, Repr

/-- One iteration of the `check_http_https_domains` loop
(`bot/scheduler.py` lines 29-51).  `gs` is the `user_settings` table
snapshot, `fetch` the `check_http_https` driver, `st` the `http_result`
local left over from earlier iterations.  Note line 43 reuses `http_result`
whenever the name is already in `locals()`, even when it was assigned for a
previous domain. -/
def httpStep (gs : Nat → Option UserSettings) (fetch : String → Except String FetchPair)
    (st : Option FetchPair) (row : Domain) : HttpStepOut :=
  match gs row.user_id with
  | none =>
    { st := st, msg := some (.checkError row.user_id row.name attrErrTrackHttp)
      fetched := [], problems := [], exc := some attrErrTrackHttp }
  | some s =>
    if get_value row.track_http s.track_http then
      match fetch row.name with
      | .error e =>
        { st := st, msg := some (.checkError row.user_id row.name e)
          fetched := [row.name], problems := [], exc := some e }
      | .ok r =>
        let p1 := if protoStatusOk r.http then [] else [httpProblemText r.http]
        if get_value row.track_https s.track_https then
          let ps := p1 ++ (if protoStatusOk r.https then [] else [httpsProblemText r.https])
          { st := some r, msg := probMsg row ps, fetched := [row.name]
            problems := ps, exc := none }
        else
          { st := some r, msg := probMsg row p1, fetched := [row.name]
            problems := p1, exc := none }
    else
      if get_value row.track_https s.track_https then
        match st with
        | some r =>
          let ps := if protoStatusOk r.https then [] else [httpsProblemText r.https]
          { st := some r, msg := probMsg row ps, fetched := []
            problems := ps, exc := none }
        | none =>
          match fetch row.name with
          | .error e =>
            { st := none, msg := some (.checkError row.user_id row.name e)
              fetched := [row.name], problems := [], exc := some e }
          | .ok r =>
            let ps := if protoStatusOk r.https then [] else [httpsProblemText r.https]
            { st := some r, msg := probMsg row ps, fetched := [row.name]
              problems := ps, exc := none }
      else
        { st := st, msg := none, fetched := [], problems := [], exc := none }

/-- The `check_http_https_domains` loop over all rows, threading the
`http_result` local, collecting one outcome per row. -/
def httpSweepOuts (gs : Nat → Option UserSettings) (fetch : String → Except String FetchPair) :
    Option FetchPair → List Domain → List HttpStepOut
  | _, [] => []
  | st, row :: rows =>
    let o := httpStep gs fetch st row
    o :: httpSweepOuts gs fetch o.st rows

/-- Value of the `http_result` local after sweeping the given rows. -/
def httpStateAfter (gs : Nat → Option UserSettings) (fetch : String → Except String FetchPair) :
    Option FetchPair → List Domain → Option FetchPair
  | st, [] => st
  | st, row :: rows => httpStateAfter gs fetch (httpStep gs fetch st row).st rows

/-- Messages sent during the `check_http_https_domains` loop. -/
def httpMsgs (gs : Nat → Option UserSettings) (fetch : String → Except String FetchPair)
    (st : Option FetchPair) (rows : List Domain) : List SweepMsg :=
  (httpSweepOuts gs fetch st rows).filterMap HttpStepOut.msg

/-- `bot/scheduler.py`, `check_http_https_domains`: at the start of the
sweep the `http_result` name is not yet bound. -/
def check_http_https_domains (gs : Nat → Option UserSettings)
    (fetch : String → Except String FetchPair) (rows : List Domain) : List SweepMsg :=
  httpMsgs gs fetch none rows

/-- The SSL block of the `check_ssl_whois_domains` loop body: skipped when
the effective flag is off, otherwise one driver call that either raises or
yields the (possibly empty) SSL problem contribution.  The second component
counts driver invocations. -/
def sslPart (s : UserSettings) (sslO : String → Except String SslResult)
    (row : Domain) : Except String (List String) × Nat :=
  if get_value row.track_ssl s.track_ssl then
    (match sslO row.name with
     | .error e => .error e
     | .ok r =>
       .ok (if sslProblemFlag r (get_value row.ssl_warn_days s.ssl_warn_days)
            then [sslProblemText] else []), 1)
  else (.ok [], 0)

/-- The WHOIS block of the `check_ssl_whois_domains` loop body. -/
def whoisPart (s : UserSettings) (whoisO : String → Except String WhoisResult)
    (row : Domain) : Except String (List String) × Nat :=
  if get_value row.track_whois s.track_whois then
    (match whoisO row.name with
     | .error e => .error e
     | .ok r =>
       .ok (if whoisProblemFlag r (get_value row.whois_warn_days s.whois_warn_days)
            then [whoisProblemText] else []), 1)
  else (.ok [], 0)

/-- Observable outcome of one `check_ssl_whois_domains` loop iteration. -/
structure SWStepOut where
  msg : Option SweepMsg
  sslCalls : Nat
  whoisCalls : Nat
  problems : List String
  exc : Option String
deriving DecidableEq, Repr

/-- One iteration of the `check_ssl_whois_domains` loop (`bot/scheduler.py`
lines 58-83): SSL block, then WHOIS block, then the conditional problem
message; an exception in either block aborts the rest of the `try` body and
produces the per-domain error message instead. -/
def swStep (gs : Nat → Option UserSettings) (sslO : String → Except String SslResult)
    (whoisO : String → Except String WhoisResult) (row : Domain) : SWStepOut :=
  match gs row.user_id with
  | none =>
    { msg := some (.checkError row.user_id row.name attrErrTrackSsl)
      sslCalls := 0, whoisCalls := 0, problems := [], exc := some attrErrTrackSsl }
  | some s =>
    match sslPart s sslO row with
    | (.error e, c1) =>
      { msg := some (.checkError row.user_id row.name e)
        sslCalls := c1, whoisCalls := 0, problems := [], exc := some e }
    | (.ok p1, c1) =>
      match whoisPart s whoisO row with
      | (.error e, c2) =>
        { msg := some (.checkError row.user_id row.name e)
          sslCalls := c1, whoisCalls := c2, problems := [], exc := some e }
      | (.ok p2, c2) =>
        { msg := probMsg row (p1 ++ p2)
          sslCalls := c1, whoisCalls := c2, problems := p1 ++ p2, exc := none }

/-- The `check_ssl_whois_domains` loop over all rows (no state is threaded:
its locals are freshly assigned in every iteration that reads them). -/
def swSweep (gs : Nat → Option UserSettings) (sslO : String → Except String SslResult)
    (whoisO : String → Except String WhoisResult) (rows : List Domain) : List SWStepOut :=
  rows.map (swStep gs sslO whoisO)

/-- Messages sent during the `check_ssl_whois_domains` loop. -/
def swMsgs (gs : Nat → Option UserSettings) (sslO : String → Except String SslResult)
    (whoisO : String → Except String WhoisResult) (rows : List Domain) : List SweepMsg :=
  (swSweep gs sslO whoisO rows).filterMap SWStepOut.msg

/-- `bot/scheduler.py`, `check_ssl_whois_domains`. -/
def check_ssl_whois_domains (gs : Nat → Option UserSettings)
    (sslO : String → Except String SslResult)
    (whoisO : String → Except String WhoisResult) (rows : List Domain) : List SweepMsg :=
  swMsgs gs sslO whoisO rows

/-- Modelled from the spec: `check_all_domains`, the job `bot/main.py`
schedules every 5 minutes, is imported from `bot.scheduler` but its body is
not among the provided sources.  The spec defines a sweep as one full pass
evaluating every registered domain across the four categories, and the
provided scheduler module realizes a pass through exactly the two category
loops above, so the full sweep is modelled as running the HTTP/HTTPS loop
and then the SSL/WHOIS loop. -/
def check_all_domains (gs : Nat → Option UserSettings)
    (fetch : String → Except String FetchPair)
    (sslO : String → Except String SslResult)
    (whoisO : String → Except String WhoisResult) (rows : List Domain) : List SweepMsg :=
  check_http_https_domains gs fetch rows ++ check_ssl_whois_domains gs sslO whoisO rows

/-! ## Domain-name validation (`bot/utils.py`, `is_valid_domain`)

The source compiles the pattern anchored at both ends: a negative lookahead
for a leading hyphen, 1 to 63 characters from the class letters/digits/
hyphen, a negative lookbehind for a trailing hyphen, a literal dot, and 2
to 6 letters.  Because the dot is not in the leading class, the regex
matches exactly when the maximal leading run of class characters (with the
hyphen conditions) is followed by the dot and an all-letter tail filling
the rest of the string; the matcher below is that operational reading.
Characters are modelled as ASCII (`Char.toLower`, `Char.isAlpha`). -/

/-- The character class of the leading label: letters, digits or hyphen. -/
def isLabelChar (c : Char) : Bool := c.isAlpha || c.isDigit || c = '-'

/-- Operational form of the compiled pattern of `is_valid_domain`. -/
def matchesDomainPattern (cs : List Char) : Bool :=
  let l := cs.takeWhile isLabelChar
  let rest := cs.dropWhile isLabelChar
  decide (1 ≤ l.length) && decide (l.length ≤ 63) &&
  decide (l.head? ≠ some '-') && decide (l.getLast? ≠ some '-') &&
  decide (rest.head? = some '.') &&
  rest.tail.all Char.isAlpha && decide (2 ≤ rest.tail.length) && decide (rest.tail.length ≤ 6)

/-- Python `str.lower()`, ASCII model. -/
def pyLower (cs : List Char) : List Char := cs.map Char.toLower

/-- `bot/utils.py`, `is_valid_domain`: match the pattern against
`domain.strip().lower()`. -/
def is_valid_domain (s : String) : Bool :=
  matchesDomainPattern (pyLower (pyStrip s.data))

/-- The language described by the claim: exactly two dot-separated labels,
a leading label of 1 to 63 letters, digits or hyphens that neither starts
nor ends with a hyphen, and a top-level label of 2 to 6 letters.  Both
labels are dot-free (the leading class and the letter class exclude the
dot), so the decomposition below is exactly the two-label reading. -/
def specValidDomain (cs : List Char) : Prop :=
  ∃ l t : List Char, cs = l ++ '.' :: t ∧
    1 ≤ l.length ∧ l.length ≤ 63 ∧
    (∀ c ∈ l, isLabelChar c = true) ∧
    l.head? ≠ some '-' ∧ l.getLast? ≠ some '-' ∧
    (∀ c ∈ t, c.isAlpha = true) ∧ 2 ≤ t.length ∧ t.length ≤ 6

/-! ## WHOIS expiry probe (`bot/utils.py`, `_check_domain_expiry_sync`)

The subprocess invocation is abstracted as `Except String WhoisCmd` (an
exception text, or the completed process with its return code and decoded
stdout).  The label regexes all have the shape `label` followed by an
optional whitespace and a nonempty dotall-free captured tail, searched
leftmost; date parsing mirrors CPython `strptime` for the four fixed
formats (exact four-digit year, one- or two-digit month/day fields with
the documented alternation priorities, full-string consumption, calendar
validation by the `datetime` constructor). -/

/-- Completed `subprocess.run(["whois", domain], ...)`. -/
structure WhoisCmd where
  returncode : Int
  stdoutStr : String
deriving DecidableEq, Repr

/-- Match the regex tail written as backslash-s `?` followed by a captured
`.+` at this position: greedily consume one whitespace character when the
remainder still leaves a non-newline character to capture, otherwise fall
back to capturing from here; the capture is the maximal run of non-newline
characters. -/
def trailMatch (rest : List Char) : Option (List Char) :=
  (match rest with
   | c :: d :: _ =>
     if isPySpace c && decide (d ≠ '\n') then some ((rest.drop 1).takeWhile (fun x => x ≠ '\n'))
     else none
   | _ => none)
  <|>
  (match rest with
   | c :: _ => if decide (c ≠ '\n') then some (rest.takeWhile (fun x => x ≠ '\n')) else none
   | _ => none)

/-- `re.search` for one expiry-label pattern: try every position from the
left; at a position where the literal label matches, the tail must also
match, otherwise the search continues further right. -/
def searchCapture (cs : List Char) (lab : List Char) : Option (List Char) :=
  match cs with
  | [] => none
  | _ :: cs' =>
    (if lab.isPrefixOf cs then trailMatch (cs.drop lab.length) else none)
    <|> searchCapture cs' lab

/-- Numeric value of one digit character. -/
def digitVal (c : Char) : Nat := c.toNat - '0'.toNat

/-- `strptime` directive `%Y`: exactly four digits. -/
def takeY : List Char → Option (Nat × List Char)
  | a :: b :: c :: d :: rest =>
    if a.isDigit && b.isDigit && c.isDigit && d.isDigit then
      some (digitVal a * 1000 + digitVal b * 100 + digitVal c * 10 + digitVal d, rest)
    else none
  | _ => none

/-- `strptime` directive `%m`: `1[0-2]`, else `0[1-9]`, else `[1-9]`. -/
def takeM : List Char → Option (Nat × List Char)
  | a :: b :: rest =>
    if a = '1' && ('0' ≤ b && b ≤ '2') then some (10 + digitVal b, rest)
    else if a = '0' && ('1' ≤ b && b ≤ '9') then some (digitVal b, rest)
    else if '1' ≤ a && a ≤ '9' then some (digitVal a, b :: rest)
    else none
  | [a] => if '1' ≤ a && a ≤ '9' then some (digitVal a, []) else none
  | [] => none

/-- `strptime` directive `%d`: `3[01]`, else `[12][0-9]`, else `0[1-9]`,
else `[1-9]`. -/
def takeD : List Char → Option (Nat × List Char)
  | a :: b :: rest =>
    if a = '3' && (b = '0' || b = '1') then some (30 + digitVal b, rest)
    else if (a = '1' || a = '2') && b.isDigit then some (digitVal a * 10 + digitVal b, rest)
    else if a = '0' && ('1' ≤ b && b ≤ '9') then some (digitVal b, rest)
    else if '1' ≤ a && a ≤ '9' then some (digitVal a, b :: rest)
    else none
  | [a] => if '1' ≤ a && a ≤ '9' then some (digitVal a, []) else none
  | [] => none

/-- `strptime` directive `%H`: `2[0-3]`, else `[0-1][0-9]`, else `[0-9]`. -/
def takeH : List Char → Option (Nat × List Char)
  | a :: b :: rest =>
    if a = '2' && ('0' ≤ b && b ≤ '3') then some (20 + digitVal b, rest)
    else if (a = '0' || a = '1') && b.isDigit then some (digitVal a * 10 + digitVal b, rest)
    else if a.isDigit then some (digitVal a, b :: rest)
    else none
  | [a] => if a.isDigit then some (digitVal a, []) else none
  | [] => none

/-- `strptime` directives `%M` and `%S`: `[0-5][0-9]`, else `[0-9]`. -/
def takeMS : List Char → Option (Nat × List Char)
  | a :: b :: rest =>
    if ('0' ≤ a && a ≤ '5') && b.isDigit then some (digitVal a * 10 + digitVal b, rest)
    else if a.isDigit then some (digitVal a, b :: rest)
    else none
  | [a] => if a.isDigit then some (digitVal a, []) else none
  | [] => none

/-- A literal character of the format, matched case-insensitively (the
whole `strptime` regex is compiled IGNORECASE). -/
def litCI (c : Char) : List Char → Option (List Char)
  | x :: rest => if x.toLower = c.toLower then some rest else none
  | [] => none

/-- English month abbreviations, as the C-locale `calendar.month_abbr`. -/
def monthAbbrNum (a b c : Char) : Option Nat :=
  match String.mk [a.toLower, b.toLower, c.toLower] with
  | "jan" => some 1 | "feb" => some 2 | "mar" => some 3 | "apr" => some 4
  | "may" => some 5 | "jun" => some 6 | "jul" => some 7 | "aug" => some 8
  | "sep" => some 9 | "oct" => some 10 | "nov" => some 11 | "dec" => some 12
  | _ => none

/-- `strptime` directive `%b`: a three-letter month abbreviation. -/
def takeB : List Char → Option (Nat × List Char)
  | a :: b :: c :: rest =>
    match monthAbbrNum a b c with
    | some n => some (n, rest)
    | none => none
  | _ => none

/-- The parsed broken-down time `strptime` hands to the `datetime`
constructor. -/
structure PyDateTime where
  year : Nat
  month : Nat
  day : Nat
  hour : Nat
  minute : Nat
  second : Nat
deriving DecidableEq, Repr

/-- Gregorian leap-year test. -/
def isLeapYear (y : Nat) : Bool := y % 4 = 0 && (y % 100 ≠ 0 || y % 400 = 0)

/-- Length of a month, as the `datetime` constructor validates it. -/
def daysInMonth (y m : Nat) : Nat :=
  if m = 2 then (if isLeapYear y then 29 else 28)
  else if m = 4 || m = 6 || m = 9 || m = 11 then 30
  else 31

/-- Validation the `datetime` constructor performs (`MINYEAR` 1, `MAXYEAR`
9999, day within the month); a violation raises `ValueError`, which the
format loop catches and treats as a non-parse. -/
def validDate (y m d : Nat) : Bool :=
  1 ≤ y && y ≤ 9999 && 1 ≤ m && m ≤ 12 && 1 ≤ d && d ≤ daysInMonth y m

/-- `strptime(s, "%Y-%m-%d")` with full-string consumption. -/
def strptimeYMD (cs : List Char) : Option PyDateTime := do
  let (y, r1) ← takeY cs
  let r2 ← litCI '-' r1
  let (m, r3) ← takeM r2
  let r4 ← litCI '-' r3
  let (d, r5) ← takeD r4
  if r5 = [] && validDate y m d then some ⟨y, m, d, 0, 0, 0⟩ else none

/-- `strptime(s, "%d-%b-%Y")` with full-string consumption. -/
def strptimeDBY (cs : List Char) : Option PyDateTime := do
  let (d, r1) ← takeD cs
  let r2 ← litCI '-' r1
  let (m, r3) ← takeB r2
  let r4 ← litCI '-' r3
  let (y, r5) ← takeY r4
  if r5 = [] && validDate y m d then some ⟨y, m, d, 0, 0, 0⟩ else none

/-- `strptime(s, "%Y.%m.%d")` with full-string consumption. -/
def strptimeYdotMD (cs : List Char) : Option PyDateTime := do
  let (y, r1) ← takeY cs
  let r2 ← litCI '.' r1
  let (m, r3) ← takeM r2
  let r4 ← litCI '.' r3
  let (d, r5) ← takeD r4
  if r5 = [] && validDate y m d then some ⟨y, m, d, 0, 0, 0⟩ else none

/-- `strptime(s, "%Y-%m-%dT%H:%M:%SZ")` with full-string consumption. -/
def strptimeISO (cs : List Char) : Option PyDateTime := do
  let (y, r1) ← takeY cs
  let r2 ← litCI '-' r1
  let (m, r3) ← takeM r2
  let r4 ← litCI '-' r3
  let (d, r5) ← takeD r4
  let r6 ← litCI 'T' r5
  let (h, r7) ← takeH r6
  let r8 ← litCI ':' r7
  let (mi, r9) ← takeMS r8
  let r10 ← litCI ':' r9
  let (sec, r11) ← takeMS r10
  let r12 ← litCI 'Z' r11
  if r12 = [] && validDate y m d then some ⟨y, m, d, h, mi, sec⟩ else none

/-- The fixed format list of the source, tried in order; the first format
that parses wins. -/
def tryFormats (cs : List Char) : Option PyDateTime :=
  strptimeYMD cs <|> strptimeDBY cs <|> strptimeYdotMD cs <|> strptimeISO cs

/-- The four expiry-label patterns of the source, in source order (each is
the literal prefix of the corresponding regex). -/
def expiryPatternLabels : List String :=
  ["Expiry Date:", "Expiration Date:", "Registry Expiry Date:", "paid-till:"]

/-- The pattern loop: for each label in order, search the output; on a
match, strip the captured group and try the formats; when none parses,
continue with the next label. -/
def findParsedDate (out : List Char) : List String → Option PyDateTime
  | [] => none
  | lab :: labs =>
    match searchCapture out lab.data with
    | none => findParsedDate out labs
    | some grp =>
      match tryFormats (pyStrip grp) with
      | some dt => some dt
      | none => findParsedDate out labs

/-- No label+format combination parses in this output: for each of the four
labels, either the search finds no match, or the captured (stripped) date
defeats every one of the four formats.  This is the hypothesis of the
unparseable-date failure case; it also covers outputs where some or all
labels do not match at all. -/
def noParsableLabel (out : List Char) : Bool :=
  expiryPatternLabels.all fun lab =>
    match searchCapture out lab.data with
    | none => true
    | some grp => (tryFormats (pyStrip grp)).isNone

/-- Days from the civil epoch 1970-01-01 (Gregorian, proleptic); the
standard era-based computation, used to model datetime subtraction. -/
def daysFromCivil (y m d : Nat) : Int :=
  let yAdj : Nat := if m ≤ 2 then y - 1 else y
  let era : Nat := yAdj / 400
  let yoe : Nat := yAdj - era * 400
  let mp : Nat := if m > 2 then m - 3 else m + 9
  let doy : Nat := (153 * mp + 2) / 5 + d - 1
  let doe : Nat := yoe * 365 + yoe / 4 - yoe / 100 + doy
  (era * 146097 + doe : Int) - 719468

/-- Seconds since the epoch of a parsed datetime. -/
def dtToSecs (dt : PyDateTime) : Int :=
  daysFromCivil dt.year dt.month dt.day * 86400
    + (dt.hour * 3600 + dt.minute * 60 + dt.second)

/-- `(expires_at - datetime.utcnow()).days`: `timedelta.days` floors. -/
def pyDaysBetween (expSecs now : Int) : Int := Int.fdiv (expSecs - now) 86400

/-- Two-digit zero padding of `strftime` `%m` and `%d`. -/
def pad2 (n : Nat) : String := if n < 10 then "0" ++ toString n else toString n

/-- `expires_at.strftime("%Y-%m-%d")` (glibc prints the year unpadded; all
parsed years here have four digits). -/
def fmtYMDdate (dt : PyDateTime) : String :=
  toString dt.year ++ "-" ++ pad2 dt.month ++ "-" ++ pad2 dt.day

/-- `bot/utils.py`, `_check_domain_expiry_sync`: run the whois command
(`cmd` is its outcome), fail on a spawn exception or nonzero exit, scan the
stdout for the labelled expiry date, and compute the result dict.  `now` is
`datetime.utcnow()` in epoch seconds.  The function is total: every failure
path returns the `valid=False` dict, mirroring the catch-all `except`. -/
def check_domain_expiry_sync (cmd : Except String WhoisCmd) (now : Int) : WhoisResult :=
  match cmd with
  | .error e => .err ("WHOIS error: " ++ e)
  | .ok c =>
    if c.returncode ≠ 0 then .err "WHOIS error: WHOIS command failed"
    else
      match findParsedDate c.stdoutStr.data expiryPatternLabels with
      | some dt => .ok (fmtYMDdate dt) (pyDaysBetween (dtToSecs dt) now)
      | none => .err "WHOIS error: Could not parse expiration date."

/-! ## Small examples and projections used by the statements below -/

/-- Whether an in-process attempt outcome is an exception. -/
def isExErr : Except String Nat → Bool
  | .error _ => true
  | .ok _ => false

/-- Recipient and domain of a sweep message. -/
def msgDomain : SweepMsg → String
  | .problems _ d _ => d
  | .checkError _ d _ => d

/-- A settings store where every user already has the default row. -/
def storeAllDefaults : Nat → Option UserSettings := fun _ => some defaultUserSettings

/-- A fetch driver that raises for `bad.com` and succeeds elsewhere. -/
def fetchBoom : String → Except String FetchPair :=
  fun n => if n = "bad.com" then Except.error "boom"
           else Except.ok ⟨ProtoResult.ok 200, ProtoResult.ok 200⟩

/-- An SSL driver that raises for `bad.com` and is healthy elsewhere. -/
def sslBoom : String → Except String SslResult :=
  fun n => if n = "bad.com" then Except.error "boom"
           else Except.ok (SslResult.ok "2031-01-01" 1000 "CA")

/-- A WHOIS driver with a far-away expiry everywhere. -/
def whoisFine : String → Except String WhoisResult :=
  fun _ => Except.ok (WhoisResult.ok "2031-01-01" 1000)

/-- A domain row with no overrides. -/
def rowPlain (nm : String) (uid : Nat) : Domain :=
  ⟨nm, uid, none, none, none, none, none, none⟩

/-- A domain row whose four track flags are all overridden to `False`. -/
def rowOff : Domain := ⟨"off.com", 2, some false, some false, some false, some false, none, none⟩

/-- A fetch driver whose HTTPS leg fails for `a.com` only. -/
def fetchStaleDemo : String → Except String FetchPair :=
  fun n => if n = "a.com"
    then Except.ok ⟨ProtoResult.ok 200, ProtoResult.fail "tls handshake failure"⟩
    else Except.ok ⟨ProtoResult.ok 200, ProtoResult.ok 200⟩

/-! ## Helper lemmas -/

theorem httpStep_char (gs : Nat → Option UserSettings) (fetch : String → Except String FetchPair)
    (st : Option FetchPair) (row : Domain) :
    ((httpStep gs fetch st row).exc = none →
      (httpStep gs fetch st row).msg = probMsg row (httpStep gs fetch st row).problems)
    ∧ (∀ e, (httpStep gs fetch st row).exc = some e →
      (httpStep gs fetch st row).st = st ∧
      (httpStep gs fetch st row).msg = some (SweepMsg.checkError row.user_id row.name e)) := by
  cases hgs : gs row.user_id with
  | none => simp [httpStep, hgs]
  | some s =>
    by_cases h1 : get_value row.track_http s.track_http = true
    · cases hf : fetch row.name with
      | error e => simp [httpStep, hgs, h1, hf]
      | ok r =>
        by_cases h2 : get_value row.track_https s.track_https = true <;>
          simp [httpStep, hgs, h1, h2, hf]
    · by_cases h2 : get_value row.track_https s.track_https = true
      · cases st with
        | some r => simp [httpStep, hgs, h1, h2]
        | none =>
          cases hf : fetch row.name with
          | error e => simp [httpStep, hgs, h1, h2, hf]
          | ok r => simp [httpStep, hgs, h1, h2, hf]
      · simp [httpStep, hgs, h1, h2, probMsg]

theorem swStep_char (gs : Nat → Option UserSettings) (sslO : String → Except String SslResult)
    (whoisO : String → Except String WhoisResult) (row : Domain) :
    ((swStep gs sslO whoisO row).exc = none →
      (swStep gs sslO whoisO row).msg = probMsg row (swStep gs sslO whoisO row).problems)
    ∧ (∀ e, (swStep gs sslO whoisO row).exc = some e →
      (swStep gs sslO whoisO row).msg = some (SweepMsg.checkError row.user_id row.name e)) := by
  cases hgs : gs row.user_id with
  | none => simp [swStep, hgs]
  | some s =>
    rcases hssl : sslPart s sslO row with ⟨r1, c1⟩
    cases r1 with
    | error e => simp [swStep, hgs, hssl]
    | ok p1 =>
      rcases hwho : whoisPart s whoisO row with ⟨r2, c2⟩
      cases r2 with
      | error e => simp [swStep, hgs, hssl, hwho]
      | ok p2 => simp [swStep, hgs, hssl, hwho]

theorem httpSweepOuts_append (gs : Nat → Option UserSettings)
    (fetch : String → Except String FetchPair) (st : Option FetchPair)
    (pre post : List Domain) :
    httpSweepOuts gs fetch st (pre ++ post)
      = httpSweepOuts gs fetch st pre
        ++ httpSweepOuts gs fetch (httpStateAfter gs fetch st pre) post := by
  induction pre generalizing st with
  | nil => simp [httpSweepOuts, httpStateAfter]
  | cons row rows ih => simp [httpSweepOuts, httpStateAfter, ih]

theorem httpMsgs_append (gs : Nat → Option UserSettings)
    (fetch : String → Except String FetchPair) (st : Option FetchPair)
    (pre post : List Domain) :
    httpMsgs gs fetch st (pre ++ post)
      = httpMsgs gs fetch st pre ++ httpMsgs gs fetch (httpStateAfter gs fetch st pre) post := by
  simp [httpMsgs, httpSweepOuts_append, List.filterMap_append]

theorem takeWhile_eq_left (p : Char → Bool) (l t : List Char) (x : Char)
    (hl : ∀ c ∈ l, p c = true) (hx : p x = false) :
    (l ++ x :: t).takeWhile p = l := by
  induction l with
  | nil => simp [List.takeWhile_cons, hx]
  | cons a as ih =>
    have ha : p a = true := hl a (List.mem_cons_self a as)
    simp [List.takeWhile_cons, ha, ih (fun c hc => hl c (List.mem_cons_of_mem a hc))]

theorem dropWhile_eq_right (p : Char → Bool) (l t : List Char) (x : Char)
    (hl : ∀ c ∈ l, p c = true) (hx : p x = false) :
    (l ++ x :: t).dropWhile p = x :: t := by
  induction l with
  | nil => simp [List.dropWhile_cons, hx]
  | cons a as ih =>
    have ha : p a = true := hl a (List.mem_cons_self a as)
    simp [List.dropWhile_cons, ha, ih (fun c hc => hl c (List.mem_cons_of_mem a hc))]

theorem findParsedDate_eq_none (out : List Char) (labs : List String)
    (h : (labs.all fun lab =>
        match searchCapture out lab.data with
        | none => true
        | some grp => (tryFormats (pyStrip grp)).isNone) = true) :
    findParsedDate out labs = none := by
  induction labs with
  | nil => rfl
  | cons lab labs ih =>
    simp only [List.all_cons, Bool.and_eq_true] at h
    obtain ⟨h1, h2⟩ := h
    cases hsc : searchCapture out lab.data with
    | none => simp [findParsedDate, hsc, ih h2]
    | some grp =>
      rw [hsc] at h1
      cases htf : tryFormats (pyStrip grp) with
      | none => simp [findParsedDate, hsc, htf, ih h2]
      | some dt => simp [htf] at h1

theorem matchesDomainPattern_iff (cs : List Char) :
    matchesDomainPattern cs = true ↔ specValidDomain cs := by
  constructor
  · intro h
    unfold matchesDomainPattern at h
    simp only [Bool.and_eq_true, decide_eq_true_eq, List.all_eq_true] at h
    obtain ⟨⟨⟨⟨⟨⟨⟨h1, h63⟩, hh⟩, hl⟩, hdot⟩, hall⟩, h2⟩, h6⟩ := h
    cases hrest : cs.dropWhile isLabelChar with
    | nil => rw [hrest] at hdot; simp at hdot
    | cons c t =>
      rw [hrest] at hdot hall h2 h6
      simp only [List.head?_cons, Option.some.injEq] at hdot
      subst hdot
      refine ⟨cs.takeWhile isLabelChar, t, ?_, h1, h63,
        fun c hc => List.mem_takeWhile_imp hc, hh, hl, ?_, h2, h6⟩
      · conv_lhs => rw [← List.takeWhile_append_dropWhile isLabelChar cs]
        rw [hrest]
      · simpa using hall
  · rintro ⟨l, t, rfl, h1, h63, hmem, hh, hl, hall, h2, h6⟩
    have htake : (l ++ '.' :: t).takeWhile isLabelChar = l :=
      takeWhile_eq_left _ _ _ _ hmem (by decide)
    have hdrop : (l ++ '.' :: t).dropWhile isLabelChar = '.' :: t :=
      dropWhile_eq_right _ _ _ _ hmem (by decide)
    unfold matchesDomainPattern
    simp only [htake, hdrop, List.head?_cons, List.tail_cons, Bool.and_eq_true,
      decide_eq_true_eq, List.all_eq_true]
    exact ⟨⟨⟨⟨⟨⟨⟨h1, h63⟩, hh⟩, hl⟩, trivial⟩, hall⟩, h2⟩, h6⟩

/-! ## Claim theorems -/

/-- C1: the scheduler sweeps resolve every one of the six effective values
as `domain.field if domain.field is not None else user_settings.field`, so
an override set to `False` or `0` wins there; but `perform_check` resolves
the warn-day thresholds with Python `or`, so a domain override
`ssl_warn_days = 0` is ignored there and the user default 15 is used where
the claimed resolution yields 0. -/
theorem c1_effective_policy_resolution :
    (∀ (row : Domain) (s : UserSettings), scheduler_effective row s = spec_effective row s)
    ∧ (perform_check_effective (rowPlain "example.com" 1) defaultUserSettings
        = spec_effective (rowPlain "example.com" 1) defaultUserSettings)
    ∧ (perform_check_effective
         ⟨"example.com", 1, none, none, none, none, some 0, none⟩
         defaultUserSettings).ssl_warn_days = 15
    ∧ (spec_effective
         ⟨"example.com", 1, none, none, none, none, some 0, none⟩
         defaultUserSettings).ssl_warn_days = 0 := by
  refine ⟨fun row s => ?_, rfl, rfl, rfl⟩
  obtain ⟨nm, uid, a, b, c, d, e, f⟩ := row
  cases a <;> cases b <;> cases c <;> cases d <;> cases e <;> cases f <;> rfl

/-- C5: the SSL reduction flags a problem exactly when the probe reports
`valid=False` or a `days_left` strictly below the effective threshold; with
the default threshold 15, a healthy certificate with 10 days left yields
exactly the one SSL problem and one with 20 days left yields none. -/
theorem c5_ssl_problem_iff :
    (∀ (r : SslResult) (t : Int),
        sslProblemFlag r t = true
          ↔ (sslValidB r = false ∨ ∃ d, sslDaysOpt r = some d ∧ d < t))
    ∧ (swStep storeAllDefaults
         (fun _ => Except.ok (SslResult.ok "2026-01-01" 10 "CA")) whoisFine
         ⟨"x.com", 5, none, none, none, some false, none, none⟩).problems
        = [sslProblemText]
    ∧ (swStep storeAllDefaults
         (fun _ => Except.ok (SslResult.ok "2026-01-01" 20 "CA")) whoisFine
         ⟨"x.com", 5, none, none, none, some false, none, none⟩).problems
        = [] := by
  refine ⟨fun r t => ?_, by decide, by decide⟩
  cases r with
  | ok x d i => simp [sslProblemFlag, sslValidB, sslDaysOpt]
  | err e => simp [sslProblemFlag, sslValidB, sslDaysOpt]

/-- C7: with both schemes effectively enabled the combined driver runs once
per domain and its result is reused (domain `a.com` below: one invocation,
both decisions from it); but the `http_result` local persists across loop
iterations, so for the next domain `b.com` (HTTP off, HTTPS on) the loop
performs no fetch at all and decides HTTPS from the result fetched for
`a.com`, flagging `b.com` although a fetch for `b.com` succeeds. -/
theorem c7_stale_fetch_reused_across_domains :
    httpMsgs storeAllDefaults fetchStaleDemo none
      [rowPlain "a.com" 1, ⟨"b.com", 1, some false, none, none, none, none, none⟩]
      = [SweepMsg.problems 1 "a.com" ["HTTPS ❌ (tls handshake failure)"],
         SweepMsg.problems 1 "b.com" ["HTTPS ❌ (tls handshake failure)"]]
    ∧ (httpSweepOuts storeAllDefaults fetchStaleDemo none
        [rowPlain "a.com" 1, ⟨"b.com", 1, some false, none, none, none, none, none⟩]).map
          HttpStepOut.fetched
      = [["a.com"], []]
    ∧ fetchStaleDemo "b.com" = Except.ok ⟨ProtoResult.ok 200, ProtoResult.ok 200⟩ := by
  refine ⟨by decide, by decide, rfl⟩

/-- C8: in the sweep loops a missing user-settings row is not lazily
created: dereferencing `None` raises `AttributeError`, which the per-domain
handler sends to the user as an error message and the domain goes
unevaluated; whereas the manual-check path (`perform_check`) resolves the
same situation by get-or-create with the defaults 15/30 and all flags on. -/
theorem c8_missing_settings_not_created_in_sweep :
    check_http_https_domains (fun _ => none)
      (fun _ => Except.ok ⟨ProtoResult.ok 200, ProtoResult.ok 200⟩)
      [rowPlain "example.com" 7]
      = [SweepMsg.checkError 7 "example.com" attrErrTrackHttp]
    ∧ check_ssl_whois_domains (fun _ => none)
        (fun _ => Except.ok (SslResult.ok "2031-01-01" 1000 "CA")) whoisFine
        [rowPlain "example.com" 7]
      = [SweepMsg.checkError 7 "example.com" attrErrTrackSsl]
    ∧ perform_check_settings (fun _ => none) 7 = defaultUserSettings
    ∧ defaultUserSettings = ⟨true, true, true, true, 15, 30⟩ := by
  refine ⟨by decide, by decide, rfl, rfl⟩

/-- C10: `is_valid_domain` accepts exactly the strings whose
stripped-and-lowercased form is two dot-separated labels, the first of 1 to
63 letters/digits/hyphens neither starting nor ending with a hyphen and the
second of 2 to 6 letters; in particular any name with a subdomain is
rejected. -/
theorem c10_domain_validation_characterization :
    (∀ s : String, is_valid_domain s = true ↔ specValidDomain (pyLower (pyStrip s.data)))
    ∧ is_valid_domain "sub.example.com" = false :=
  ⟨fun _ => matchesDomainPattern_iff _, by decide⟩

/-- C2: in both scheduler loops, an exception raised while evaluating one
domain is caught by that domain's `except`, produces exactly one error
message for that domain, and the messages for every other domain are those
of sweeping the remaining rows unchanged (for the HTTP loop, from the
`http_result` state the failing iteration left untouched). -/
theorem c2_exception_isolated_per_domain :
    (∀ (gs : Nat → Option UserSettings) (fetch : String → Except String FetchPair)
        (pre post : List Domain) (bad : Domain) (e : String),
        (httpStep gs fetch (httpStateAfter gs fetch none pre) bad).exc = some e →
        httpMsgs gs fetch none (pre ++ bad :: post)
          = httpMsgs gs fetch none pre
            ++ SweepMsg.checkError bad.user_id bad.name e
              :: httpMsgs gs fetch (httpStateAfter gs fetch none pre) post)
    ∧ (∀ (gs : Nat → Option UserSettings) (sslO : String → Except String SslResult)
        (whoisO : String → Except String WhoisResult)
        (pre post : List Domain) (bad : Domain) (e : String),
        (swStep gs sslO whoisO bad).exc = some e →
        swMsgs gs sslO whoisO (pre ++ bad :: post)
          = swMsgs gs sslO whoisO pre
            ++ SweepMsg.checkError bad.user_id bad.name e :: swMsgs gs sslO whoisO post) := by
  constructor
  · intro gs fetch pre post bad e he
    obtain ⟨hst, hmsg⟩ := (httpStep_char gs fetch (httpStateAfter gs fetch none pre) bad).2 e he
    rw [httpMsgs_append]
    congr 1
    simp only [httpMsgs, httpSweepOuts, List.filterMap_cons, hmsg, hst]
  · intro gs sslO whoisO pre post bad e he
    have hmsg := (swStep_char gs sslO whoisO bad).2 e he
    simp only [swMsgs, swSweep, List.map_append, List.map_cons, List.filterMap_append,
      List.filterMap_cons, hmsg]

/-- C2 witness: a concrete three-domain HTTP/HTTPS sweep in which the
middle domain's fetch raises; applying the theorem yields the decomposed
message list, and the analogous SSL/WHOIS instance. -/
theorem c2_witness :
    (httpMsgs storeAllDefaults fetchBoom none
        ([rowPlain "a.com" 1] ++ rowPlain "bad.com" 1 :: [rowPlain "c.com" 1])
      = httpMsgs storeAllDefaults fetchBoom none [rowPlain "a.com" 1]
        ++ SweepMsg.checkError 1 "bad.com" "boom"
          :: httpMsgs storeAllDefaults fetchBoom
              (httpStateAfter storeAllDefaults fetchBoom none [rowPlain "a.com" 1])
              [rowPlain "c.com" 1])
    ∧ (swMsgs storeAllDefaults sslBoom whoisFine
        ([rowPlain "a.com" 1] ++ rowPlain "bad.com" 1 :: [rowPlain "c.com" 1])
      = swMsgs storeAllDefaults sslBoom whoisFine [rowPlain "a.com" 1]
        ++ SweepMsg.checkError 1 "bad.com" "boom"
          :: swMsgs storeAllDefaults sslBoom whoisFine [rowPlain "c.com" 1]) :=
  ⟨c2_exception_isolated_per_domain.1 storeAllDefaults fetchBoom
      [rowPlain "a.com" 1] [rowPlain "c.com" 1] (rowPlain "bad.com" 1) "boom" (by decide),
   c2_exception_isolated_per_domain.2 storeAllDefaults sslBoom whoisFine
      [rowPlain "a.com" 1] [rowPlain "c.com" 1] (rowPlain "bad.com" 1) "boom" (by decide)⟩

/-- C3 counterexample: the full sweep runs the availability loop and then
the expiry loop, so a domain failing in both categories is notified twice
in one sweep, each time with only that loop's problems — refuting "exactly
once carrying the full list across the four categories". -/
theorem c3_counterexample_two_notifications :
    check_all_domains storeAllDefaults
      (fun _ => Except.ok ⟨ProtoResult.fail "refused", ProtoResult.fail "refused"⟩)
      (fun _ => Except.ok (SslResult.err "handshake fail")) whoisFine
      [rowPlain "x.com" 5]
      = [SweepMsg.problems 5 "x.com" ["HTTP ❌ (refused)", "HTTPS ❌ (refused)"],
         SweepMsg.problems 5 "x.com" ["SSL certificate is expiring or invalid ⚠️"]]
    ∧ ((check_all_domains storeAllDefaults
        (fun _ => Except.ok ⟨ProtoResult.fail "refused", ProtoResult.fail "refused"⟩)
        (fun _ => Except.ok (SslResult.err "handshake fail")) whoisFine
        [rowPlain "x.com" 5]).map msgDomain
      = ["x.com", "x.com"]) := by
  refine ⟨by decide, by decide⟩

/-- C3 amended: within each of the two category loops, every domain row
yields exactly one outcome, and when its evaluation does not raise, a
message is sent exactly when its problem list is nonempty, carrying the
owner id, the domain name and the full problem list of that loop; the
loop's messages are exactly those per-row messages in row order. -/
theorem c3_amended_once_per_pass :
    (∀ (gs : Nat → Option UserSettings) (fetch : String → Except String FetchPair)
        (st : Option FetchPair) (rows : List Domain),
        (httpSweepOuts gs fetch st rows).length = rows.length)
    ∧ (∀ (gs : Nat → Option UserSettings) (fetch : String → Except String FetchPair)
        (st : Option FetchPair) (row : Domain),
        (httpStep gs fetch st row).exc = none →
        (httpStep gs fetch st row).msg = probMsg row (httpStep gs fetch st row).problems)
    ∧ (∀ (gs : Nat → Option UserSettings) (sslO : String → Except String SslResult)
        (whoisO : String → Except String WhoisResult) (rows : List Domain),
        (swSweep gs sslO whoisO rows).length = rows.length)
    ∧ (∀ (gs : Nat → Option UserSettings) (sslO : String → Except String SslResult)
        (whoisO : String → Except String WhoisResult) (row : Domain),
        (swStep gs sslO whoisO row).exc = none →
        (swStep gs sslO whoisO row).msg = probMsg row (swStep gs sslO whoisO row).problems)
    ∧ (∀ (gs : Nat → Option UserSettings) (fetch : String → Except String FetchPair)
        (st : Option FetchPair) (rows : List Domain),
        httpMsgs gs fetch st rows = (httpSweepOuts gs fetch st rows).filterMap HttpStepOut.msg)
    ∧ (∀ (gs : Nat → Option UserSettings) (sslO : String → Except String SslResult)
        (whoisO : String → Except String WhoisResult) (rows : List Domain),
        swMsgs gs sslO whoisO rows = (swSweep gs sslO whoisO rows).filterMap SWStepOut.msg) := by
  refine ⟨?_, ?_, ?_, ?_, fun _ _ _ _ => rfl, fun _ _ _ _ => rfl⟩
  · intro gs fetch st rows
    induction rows generalizing st with
    | nil => rfl
    | cons row rows ih => simp [httpSweepOuts, ih]
  · exact fun gs fetch st row => (httpStep_char gs fetch st row).1
  · intro gs sslO whoisO rows; simp [swSweep]
  · exact fun gs sslO whoisO row => (swStep_char gs sslO whoisO row).1

/-- C3 witness: the amended per-row characterization applied to a concrete
problematic row in each loop. -/
theorem c3_witness :
    ((httpStep storeAllDefaults fetchStaleDemo none (rowPlain "a.com" 1)).msg
      = probMsg (rowPlain "a.com" 1)
          (httpStep storeAllDefaults fetchStaleDemo none (rowPlain "a.com" 1)).problems)
    ∧ ((swStep storeAllDefaults sslBoom whoisFine (rowPlain "a.com" 1)).msg
      = probMsg (rowPlain "a.com" 1)
          (swStep storeAllDefaults sslBoom whoisFine (rowPlain "a.com" 1)).problems) :=
  ⟨c3_amended_once_per_pass.2.1 storeAllDefaults fetchStaleDemo none
      (rowPlain "a.com" 1) (by decide),
   c3_amended_once_per_pass.2.2.2.1 storeAllDefaults sslBoom whoisFine
      (rowPlain "a.com" 1) (by decide)⟩

/-- C4: the in-process fetch runs at most 3 attempts with a sleep after
each failure; the curl fallback runs exactly when all three attempts
raised; when it does and curl reports 200 the result is ok 200, and when
curl also fails the result is fail with the last in-process error and the
curl error concatenated. -/
theorem c4_retry_then_curl_fallback :
    (∀ (att : Nat → Except String Nat) (curl : Except String CurlOut),
        (fetch_with_retries att curl).attemptsMade ≤ 3
      ∧ (fetch_with_retries att curl).curlInvoked
          = (isExErr (att 0) && isExErr (att 1) && isExErr (att 2)))
    ∧ (∀ (att : Nat → Except String Nat) (curl : Except String CurlOut) (e0 e1 e2 : String),
        att 0 = Except.error e0 → att 1 = Except.error e1 → att 2 = Except.error e2 →
        ((run_curl_check curl = CurlResult.ok 200 →
            fetch_with_retries att curl = ⟨ProtoResult.ok 200, 3, 3, true⟩)
        ∧ (∀ ce, run_curl_check curl = CurlResult.fail ce →
            fetch_with_retries att curl
              = ⟨ProtoResult.fail ("httpx: " ++ e2 ++ "; curl: " ++ ce), 3, 3, true⟩))) := by
  constructor
  · intro att curl
    cases h0 : att 0 <;> cases h1 : att 1 <;> cases h2 : att 2 <;>
      cases hc : run_curl_check curl <;>
        simp [fetch_with_retries, httpxAttempts, isExErr, h0, h1, h2, hc]
  · intro att curl e0 e1 e2 h0 h1 h2
    constructor
    · intro hc
      simp [fetch_with_retries, httpxAttempts, h0, h1, h2, hc]
    · intro ce hc
      simp [fetch_with_retries, httpxAttempts, fstrOpt, h0, h1, h2, hc]

/-- C4 witness: three failing attempts followed by a curl 200, and three
failing attempts followed by a curl spawn failure. -/
theorem c4_witness :
    fetch_with_retries (fun i => Except.error (toString i)) (Except.ok ⟨"200", ""⟩)
      = ⟨ProtoResult.ok 200, 3, 3, true⟩
    ∧ fetch_with_retries (fun i => Except.error (toString i)) (Except.error "no curl")
      = ⟨ProtoResult.fail "httpx: 2; curl: no curl", 3, 3, true⟩ :=
  ⟨(c4_retry_then_curl_fallback.2 (fun i => Except.error (toString i))
      (Except.ok ⟨"200", ""⟩) "0" "1" "2" rfl rfl rfl).1 (by decide),
   (c4_retry_then_curl_fallback.2 (fun i => Except.error (toString i))
      (Except.error "no curl") "0" "1" "2" rfl rfl rfl).2 "no curl" (by decide)⟩

/-- C9: a domain whose four effective track flags are all false contributes
an empty problem list in both loops, triggers no driver invocation at all,
sends no message, and leaves the loop state untouched. -/
theorem c9_all_flags_off_nothing_happens :
    ∀ (gs : Nat → Option UserSettings) (fetch : String → Except String FetchPair)
      (sslO : String → Except String SslResult) (whoisO : String → Except String WhoisResult)
      (st : Option FetchPair) (row : Domain) (s : UserSettings),
      gs row.user_id = some s →
      get_value row.track_http s.track_http = false →
      get_value row.track_https s.track_https = false →
      get_value row.track_ssl s.track_ssl = false →
      get_value row.track_whois s.track_whois = false →
      (httpStep gs fetch st row).problems = [] ∧ (httpStep gs fetch st row).msg = none
      ∧ (httpStep gs fetch st row).fetched = [] ∧ (httpStep gs fetch st row).st = st
      ∧ (swStep gs sslO whoisO row).problems = [] ∧ (swStep gs sslO whoisO row).msg = none
      ∧ (swStep gs sslO whoisO row).sslCalls = 0
      ∧ (swStep gs sslO whoisO row).whoisCalls = 0 := by
  intro gs fetch sslO whoisO st row s hgs h1 h2 h3 h4
  simp [httpStep, swStep, sslPart, whoisPart, probMsg, hgs, h1, h2, h3, h4]

/-- C9 witness: a row overriding all four flags to `False` under the
default settings store. -/
theorem c9_witness :
    (httpStep storeAllDefaults fetchBoom none rowOff).msg = none
    ∧ (swStep storeAllDefaults sslBoom whoisFine rowOff).sslCalls = 0 := by
  have h := c9_all_flags_off_nothing_happens storeAllDefaults fetchBoom sslBoom whoisFine
    none rowOff defaultUserSettings rfl rfl rfl rfl rfl
  exact ⟨h.2.1, h.2.2.2.2.2.2.1⟩

/-- C6: the WHOIS expiry probe scans for the four labels in source order
and tries the fixed formats on the first captured date of each; the sample
response parses to a valid result expiring `2030-01-01`; a response in
which no label pattern matches yields the invalid result with the parse
error, and so does one in which labels match but no captured date parses
under any format (unparseable date); a whois spawn exception yields the
invalid result carrying its text, and a nonzero exit yields the invalid
command-failure result — the embedding is a total function, so no
exception escapes the probe. -/
theorem c6_whois_expiry_parse :
    (∀ now : Int,
        whoisValidB (check_domain_expiry_sync
          (Except.ok ⟨0, "Registry Expiry Date: 2030-01-01T00:00:00Z"⟩) now) = true
      ∧ whoisExpiresAt? (check_domain_expiry_sync
          (Except.ok ⟨0, "Registry Expiry Date: 2030-01-01T00:00:00Z"⟩) now)
          = some "2030-01-01")
    ∧ (∀ (out : String) (now : Int),
        (∀ lab ∈ expiryPatternLabels, searchCapture out.data lab.data = none) →
        check_domain_expiry_sync (Except.ok ⟨0, out⟩) now
          = WhoisResult.err "WHOIS error: Could not parse expiration date.")
    ∧ (∀ (out : String) (now : Int),
        noParsableLabel out.data = true →
        check_domain_expiry_sync (Except.ok ⟨0, out⟩) now
          = WhoisResult.err "WHOIS error: Could not parse expiration date.")
    ∧ (∀ (e : String) (now : Int),
        check_domain_expiry_sync (Except.error e) now
          = WhoisResult.err ("WHOIS error: " ++ e))
    ∧ (∀ (rc : Int) (out : String) (now : Int), rc ≠ 0 →
        check_domain_expiry_sync (Except.ok ⟨rc, out⟩) now
          = WhoisResult.err "WHOIS error: WHOIS command failed") := by
  refine ⟨fun now => ⟨rfl, rfl⟩, ?_, ?_, fun e now => rfl, ?_⟩
  · intro out now h
    have h1 := h "Expiry Date:" (by simp [expiryPatternLabels])
    have h2 := h "Expiration Date:" (by simp [expiryPatternLabels])
    have h3 := h "Registry Expiry Date:" (by simp [expiryPatternLabels])
    have h4 := h "paid-till:" (by simp [expiryPatternLabels])
    simp [check_domain_expiry_sync, expiryPatternLabels, findParsedDate, h1, h2, h3, h4]
  · intro out now h
    simp [check_domain_expiry_sync,
      findParsedDate_eq_none out.data expiryPatternLabels h]
  · intro rc out now hrc
    simp [check_domain_expiry_sync, hrc]

/-- C6 witness: the no-label case, the matching-label-but-unparseable-date
case, and the nonzero-exit case at concrete inputs. -/
theorem c6_witness :
    check_domain_expiry_sync (Except.ok ⟨0, "no labels here"⟩) 0
      = WhoisResult.err "WHOIS error: Could not parse expiration date."
    ∧ check_domain_expiry_sync (Except.ok ⟨0, "Expiry Date: garbage"⟩) 0
      = WhoisResult.err "WHOIS error: Could not parse expiration date."
    ∧ check_domain_expiry_sync (Except.ok ⟨3, "Expiry Date: 2030-01-01"⟩) 0
      = WhoisResult.err "WHOIS error: WHOIS command failed" :=
  ⟨c6_whois_expiry_parse.2.1 "no labels here" 0 (by decide),
   c6_whois_expiry_parse.2.2.1 "Expiry Date: garbage" 0 (by decide),
   c6_whois_expiry_parse.2.2.2.2 3 "Expiry Date: 2030-01-01" 0 (by decide)⟩

end DomainInfoBot
